import Mathlib

/-!
# Verification of the DeepV-Ki wiki generation task core

Shallow embedding of the task-scheduler core of the repository:
`api/gitlab_db.py` (tables `wiki_generation_tasks` and `wiki_projects` and
their operations) and `api/task_queue.py` (`TaskQueueManager`), plus the
relevant part of `api/wiki_generator.py` (`generate_wiki`).

Conventions of the embedding:
* SQLite rows become Lean structures; nullable columns become `Option`.
* `CURRENT_TIMESTAMP` becomes an explicit `now : Nat` argument.
* Statuses are the literal strings the code stores (`'queued'`,
  `'processing'`, `'completed'`, `'failed'` for tasks; `'not_generated'`,
  `'generating'`, `'generated'`, `'failed'` for projects).
* A `try/except` around a store operation becomes an explicit boolean
  argument (`storeOk` / `readErr`) selecting the success or the exception
  branch; on the exception branch the transaction is rolled back, so the
  database value is returned unchanged.
* External pipeline collaborators (repository download, document
  extraction, retriever preparation, page-content generation) are opaque
  in the source; their outcomes are passed in as `Except`/parameters.
-/

namespace DeepWiki

/-- One element of `wiki_structure['pages']` as built by
`generate_wiki` (api/wiki_generator.py): the fields the core reads. -/
structure WikiPage where
  title : String
  content : String
  deriving Repr, DecidableEq

/-- The `wiki_structure` dict built at the end of `generate_wiki`
(api/wiki_generator.py:745-750). -/
structure WikiStructure where
  title : String
  description : String
  pages : List WikiPage
  deriving Repr, DecidableEq

/-- The `result` payload stored on the task row on completion
(api/task_queue.py:552-557). -/
structure TaskResult where
  wiki_structure : WikiStructure
  documents_count : Nat
  repo_path : String
  deriving Repr, DecidableEq

/-- A row of the `wiki_generation_tasks` table (api/gitlab_db.py:111-138,
with the `project_key` column added later in `_ensure_db_exists`). -/
structure Task where
  task_id : String
  repo_url : String
  repo_type : String
  owner : String
  repo_name : String
  provider : String
  model : String
  language : String
  is_comprehensive : Bool
  excluded_dirs : Option String
  excluded_files : Option String
  included_dirs : Option String
  included_files : Option String
  access_token : Option String
  force_refresh : Bool
  project_key : Option String
  status : String
  progress : Nat
  message : String
  result : Option TaskResult
  error_message : Option String
  created_at : Nat
  updated_at : Nat
  started_at : Option Nat
  completed_at : Option Nat
  deriving Repr, DecidableEq

/-- A row of the `wiki_projects` table (api/gitlab_db.py:159-197, with the
`progress` and `message` columns added by the ALTER TABLE migration). -/
structure Project where
  project_key : String
  repo_url : String
  repo_type : String
  owner : String
  repo_name : String
  status : String
  current_task_id : Option String
  last_generated_at : Option Nat
  last_failed_at : Option Nat
  last_success_date : Option String
  generation_count : Nat
  wiki_structure : Option WikiStructure
  documents_count : Option Nat
  pages_count : Option Nat
  progress : Nat
  message : Option String
  created_at : Nat
  updated_at : Nat
  deriving Repr, DecidableEq

/-- The two tables of the durable store that the core reads and writes. -/
structure DB where
  tasks : List Task
  projects : List Project
  deriving Repr, DecidableEq

/-- `SELECT * FROM wiki_generation_tasks WHERE task_id = ?`
(`task_id` is UNIQUE, so the first match is the row). -/
def DB.findTask (db : DB) (task_id : String) : Option Task :=
  db.tasks.find? (fun t => t.task_id == task_id)

/-- `SELECT * FROM wiki_projects WHERE project_key = ?`
(`project_key` is the PRIMARY KEY). -/
def DB.findProject (db : DB) (project_key : String) : Option Project :=
  db.projects.find? (fun p => p.project_key == project_key)

/-- Python truthiness of an optional string: `if s:` is false for both
`None` and the empty string. -/
def pyTruthy (s : Option String) : Bool :=
  match s with
  | none => false
  | some v => v != ""

/-- `GitLabProjectDB.get_task` (api/gitlab_db.py:858-883): SELECT the row
by id; `readErr = true` selects the `except` branch, which returns `None`
on any store error. -/
def get_task (readErr : Bool) (db : DB) (task_id : String) : Option Task :=
  if readErr then none else db.findTask task_id

/-- The row-level effect of `GitLabProjectDB.update_task_status`
(api/gitlab_db.py:885-945): partial SET of the supplied columns, plus the
unconditional timestamp rules —
`if status == 'processing' and progress == 0: started_at = CURRENT_TIMESTAMP`
`elif status in ['completed', 'failed']: completed_at = CURRENT_TIMESTAMP`. -/
def applyTaskUpdate (now : Nat) (status : String) (progress : Option Nat)
    (message : Option String) (result : Option TaskResult)
    (error_message : Option String) (t : Task) : Task :=
  let t1 := { t with status := status, updated_at := now }
  let t2 := match progress with
    | some p => { t1 with progress := p }
    | none => t1
  let t3 := match message with
    | some m => { t2 with message := m }
    | none => t2
  let t4 := match result with
    | some r => { t3 with result := some r }
    | none => t3
  let t5 := match error_message with
    | some e => { t4 with error_message := some e }
    | none => t4
  if status == "processing" && progress == some 0 then
    { t5 with started_at := some now }
  else if status == "completed" || status == "failed" then
    { t5 with completed_at := some now }
  else t5

/-- `GitLabProjectDB.update_task_status` (api/gitlab_db.py:885-945):
`UPDATE wiki_generation_tasks SET ... WHERE task_id = ?`. The boolean
return value (false only on a store exception) is not modelled; no claim
consumes it. -/
def update_task_status (db : DB) (now : Nat) (task_id : String)
    (status : String) (progress : Option Nat) (message : Option String)
    (result : Option TaskResult) (error_message : Option String) : DB :=
  { db with
    tasks := db.tasks.map (fun t =>
      if t.task_id == task_id then
        applyTaskUpdate now status progress message result error_message t
      else t) }

/-- The WHERE clause of the sweep in `cleanup_interrupted_tasks`
(api/gitlab_db.py:991-996): `status IN ('queued', 'processing')`. -/
def isInterrupted (t : Task) : Bool :=
  t.status == "queued" || t.status == "processing"

/-- The task UPDATE of `cleanup_interrupted_tasks`
(api/gitlab_db.py:1004-1013): mark the row failed with the fixed
interruption messages, progress 0 and a completion timestamp. -/
def markInterrupted (now : Nat) (t : Task) : Task :=
  if isInterrupted t then
    { t with
      status := "failed",
      progress := 0,
      error_message := some "服务器重启导致任务中断",
      message := "任务已被标记为失败，请重新生成",
      completed_at := some now,
      updated_at := now }
  else t

/-- The per-task project UPDATE of `cleanup_interrupted_tasks`
(api/gitlab_db.py:1017-1029):
`UPDATE wiki_projects SET status='failed', last_failed_at=..., current_task_id=NULL
 WHERE project_key = ? AND status IN ('generating', 'queued')`,
executed only when the interrupted task's `project_key` is truthy
(`if project_key:`). The Python guard skips the UPDATE entirely; folding
it into the per-row condition is equivalent because an UPDATE whose WHERE
clause matches nothing is a no-op. -/
def failLinkedProject (now : Nat) (t : Task) (p : Project) : Project :=
  if pyTruthy t.project_key && p.project_key == t.project_key.getD "" &&
     (p.status == "generating" || p.status == "queued") then
    { p with
      status := "failed",
      last_failed_at := some now,
      current_task_id := none,
      updated_at := now }
  else p

/-- `GitLabProjectDB.cleanup_interrupted_tasks` (api/gitlab_db.py:973-1036):
select the interrupted tasks, mark them all failed (the returned count is
the UPDATE's rowcount, i.e. the number of interrupted rows), then walk the
selected tasks and fail each linked project still in
`('generating', 'queued')`. -/
def cleanup_interrupted_tasks (db : DB) (now : Nat) : Nat × DB :=
  let interrupted := db.tasks.filter isInterrupted
  let tasks := db.tasks.map (markInterrupted now)
  let projects := interrupted.foldl
    (fun ps t => ps.map (failLinkedProject now t)) db.projects
  (interrupted.length, { tasks := tasks, projects := projects })

/-- The fresh `wiki_projects` row inserted by `get_or_create_wiki_project`
(api/gitlab_db.py:1103-1107); columns not named in the INSERT take their
schema defaults (`status` is set explicitly to `'not_generated'`). -/
def newProject (now : Nat)
    (repo_url repo_type owner repo_name : String) : Project :=
  { project_key := repo_type ++ ":" ++ owner ++ "/" ++ repo_name,
    repo_url := repo_url,
    repo_type := repo_type,
    owner := owner,
    repo_name := repo_name,
    status := "not_generated",
    current_task_id := none,
    last_generated_at := none,
    last_failed_at := none,
    last_success_date := none,
    generation_count := 0,
    wiki_structure := none,
    documents_count := none,
    pages_count := none,
    progress := 0,
    message := none,
    created_at := now,
    updated_at := now }

/-- `GitLabProjectDB.get_or_create_wiki_project` (api/gitlab_db.py:1070-1122):
return the existing row unchanged, else insert a `not_generated` row and
return it. -/
def get_or_create_wiki_project (db : DB) (now : Nat)
    (repo_url repo_type owner repo_name : String) : Project × DB :=
  let project_key := repo_type ++ ":" ++ owner ++ "/" ++ repo_name
  match db.findProject project_key with
  | some p => (p, db)
  | none =>
    let p := newProject now repo_url repo_type owner repo_name
    (p, { db with projects := db.projects ++ [p] })

/-- The fresh `wiki_generation_tasks` row inserted by
`create_wiki_generation_task` (api/gitlab_db.py:837-852): status
`'queued'`, progress 0, message `'Task created and queued'`; timestamps
take the schema defaults. -/
def newTask (now : Nat)
    (task_id repo_url repo_type owner repo_name provider model language : String)
    (is_comprehensive : Bool)
    (excluded_dirs excluded_files included_dirs included_files : Option String)
    (access_token : Option String) (project_key : Option String)
    (force_refresh : Bool) : Task :=
  { task_id := task_id,
    repo_url := repo_url,
    repo_type := repo_type,
    owner := owner,
    repo_name := repo_name,
    provider := provider,
    model := model,
    language := language,
    is_comprehensive := is_comprehensive,
    excluded_dirs := excluded_dirs,
    excluded_files := excluded_files,
    included_dirs := included_dirs,
    included_files := included_files,
    access_token := access_token,
    force_refresh := force_refresh,
    project_key := project_key,
    status := "queued",
    progress := 0,
    message := "Task created and queued",
    result := none,
    error_message := none,
    created_at := now,
    updated_at := now,
    started_at := none,
    completed_at := none }

/-- `GitLabProjectDB.create_wiki_generation_task` (api/gitlab_db.py:795-857):
INSERT the queued row, returning true; `storeOk = false` selects the
`except` branch (rollback, return false). -/
def create_wiki_generation_task (storeOk : Bool) (db : DB) (now : Nat)
    (task_id repo_url repo_type owner repo_name provider model language : String)
    (is_comprehensive : Bool)
    (excluded_dirs excluded_files included_dirs included_files : Option String)
    (access_token : Option String) (project_key : Option String)
    (force_refresh : Bool) : Bool × DB :=
  if storeOk then
    (true,
     { db with
       tasks := db.tasks ++
         [newTask now task_id repo_url repo_type owner repo_name provider
           model language is_comprehensive excluded_dirs excluded_files
           included_dirs included_files access_token project_key
           force_refresh] })
  else (false, db)

/-- The row-level effect of `update_wiki_project_status`
(api/gitlab_db.py:1143-1182): one of four field-sets selected by the new
status (the final `else` covers `'not_generated'` and anything else). -/
def applyProjectStatus (now : Nat) (status : String)
    (task_id : Option String) (last_success_date : Option String)
    (p : Project) : Project :=
  if status == "generating" then
    { p with status := status, current_task_id := task_id, updated_at := now }
  else if status == "generated" then
    { p with
      status := status,
      current_task_id := none,
      last_generated_at := some now,
      last_success_date := last_success_date,
      generation_count := p.generation_count + 1,
      updated_at := now }
  else if status == "failed" then
    { p with
      status := status,
      current_task_id := none,
      last_failed_at := some now,
      updated_at := now }
  else
    { p with status := status, current_task_id := none, updated_at := now }

/-- `GitLabProjectDB.update_wiki_project_status` (api/gitlab_db.py:1124-1189):
`UPDATE wiki_projects SET ... WHERE project_key = ?`; returns true after
the UPDATE regardless of how many rows matched (there is no existence
check); `storeOk = false` selects the `except` branch (rollback, return
false). -/
def update_wiki_project_status (storeOk : Bool) (db : DB) (now : Nat)
    (project_key status : String) (task_id : Option String)
    (last_success_date : Option String) : Bool × DB :=
  if storeOk then
    (true,
     { db with
       projects := db.projects.map (fun p =>
         if p.project_key == project_key then
           applyProjectStatus now status task_id last_success_date p
         else p) })
  else (false, db)

/-- `GitLabProjectDB.save_wiki_project_result` (api/gitlab_db.py:1191-1235):
store the structured result, counters, progress 100 and a message on the
project row; `if not message:` substitutes the default message; `storeOk =
false` selects the `except` branch (rollback, return false). -/
def save_wiki_project_result (storeOk : Bool) (db : DB) (now : Nat)
    (project_key : String) (ws : WikiStructure) (documents_count : Nat)
    (message : Option String) : Bool × DB :=
  if storeOk then
    let pages_count := ws.pages.length
    let defaultMsg :=
      "Wiki generated successfully with " ++ toString pages_count ++ " pages"
    let msg := match message with
      | some m => if m == "" then defaultMsg else m
      | none => defaultMsg
    (true,
     { db with
       projects := db.projects.map (fun p =>
         if p.project_key == project_key then
           { p with
             wiki_structure := some ws,
             documents_count := some documents_count,
             pages_count := some pages_count,
             progress := 100,
             message := some msg,
             updated_at := now }
         else p) })
  else (false, db)

/-- Result of `TaskQueueManager.create_task` (api/task_queue.py:62-151):
the function either returns the value of `project['current_task_id']` or a
fresh id (`returned`), or raises `Exception("Failed to create task in
database")` when the INSERT fails (`raised`). -/
inductive SubmitResult where
  | returned (task_id : Option String)
  | raised
  deriving Repr, DecidableEq

/-- `TaskQueueManager.create_task` (api/task_queue.py:62-151): get or
create the project row; if its status is `'generating'`, return its
`current_task_id` without touching the tasks table; otherwise insert the
new queued task (fresh uuid passed in as `new_task_id`), move the project
to `'generating'` and return the new id. Starting the worker thread
(step 6) has no effect on the store and is not modelled. -/
def create_task (storeOk : Bool) (db : DB) (now : Nat) (new_task_id : String)
    (repo_url repo_type owner repo_name provider model language : String)
    (is_comprehensive : Bool)
    (excluded_dirs excluded_files included_dirs included_files : Option String)
    (access_token : Option String) (force_refresh : Bool) : SubmitResult × DB :=
  let project_key := repo_type ++ ":" ++ owner ++ "/" ++ repo_name
  let gc := get_or_create_wiki_project db now repo_url repo_type owner repo_name
  let project := gc.1
  let db1 := gc.2
  if project.status == "generating" then
    (SubmitResult.returned project.current_task_id, db1)
  else
    let cr := create_wiki_generation_task storeOk db1 now new_task_id
      repo_url repo_type owner repo_name provider model language
      is_comprehensive excluded_dirs excluded_files included_dirs
      included_files access_token (some project_key) force_refresh
    if cr.1 then
      (SubmitResult.returned (some new_task_id),
       (update_wiki_project_status true cr.2 now project_key "generating"
         (some new_task_id) none).2)
    else
      (SubmitResult.raised, cr.2)

/-- The dict returned by `TaskQueueManager.get_task_status`
(api/task_queue.py:210-228): exactly the fifteen keys the code copies out
of the task row. -/
structure TaskView where
  task_id : String
  status : String
  progress : Nat
  message : String
  repo_url : String
  repo_type : String
  owner : String
  repo_name : String
  provider : String
  model : String
  language : String
  result : Option TaskResult
  error_message : Option String
  created_at : Nat
  completed_at : Option Nat
  deriving Repr, DecidableEq

/-- The field-by-field projection performed in the body of
`get_task_status` (api/task_queue.py:212-227). -/
def taskView (t : Task) : TaskView :=
  { task_id := t.task_id,
    status := t.status,
    progress := t.progress,
    message := t.message,
    repo_url := t.repo_url,
    repo_type := t.repo_type,
    owner := t.owner,
    repo_name := t.repo_name,
    provider := t.provider,
    model := t.model,
    language := t.language,
    result := t.result,
    error_message := t.error_message,
    created_at := t.created_at,
    completed_at := t.completed_at }

/-- `TaskQueueManager.get_task_status` (api/task_queue.py:199-228):
`db.get_task` then the projection, `None` when the row is absent or the
read failed. -/
def get_task_status (readErr : Bool) (db : DB) (task_id : String) :
    Option TaskView :=
  (get_task readErr db task_id).map taskView

/-- The nested progress callback `update_wiki_progress` defined inside
`TaskQueueManager._process_task` (api/task_queue.py:442-466): writes the
checkpoint to the task row via `update_task_status(status='processing')`
and then mirrors progress and message onto the `wiki_projects` row of the
task's `project_key` (`UPDATE wiki_projects SET progress = ?, message = ?
WHERE project_key = ?`), skipped when `project_key` is falsy. The mirror
write is wrapped in its own try/except; the success branch is modelled. -/
def update_wiki_progress (db : DB) (now : Nat) (task_id : String)
    (project_key : Option String) (progress_pct : Nat)
    (detail_msg : String) : DB :=
  let db1 := update_task_status db now task_id "processing"
    (some progress_pct) (some detail_msg) none none
  if pyTruthy project_key then
    { db1 with
      projects := db1.projects.map (fun p =>
        if p.project_key == project_key.getD "" then
          { p with progress := progress_pct, message := some detail_msg }
        else p) }
  else db1

deriving instance DecidableEq for Except

/-- One entry of the page structure list produced by
`generate_wiki_structure`, together with the outcome of the (opaque,
external) `generate_page_content` call for that page: `.ok content` when
the call returns, `.error msg` when it raises. -/
structure PageSpec where
  title : String
  gen : Except String String
  deriving Repr, DecidableEq

/-- The per-page try/except of `generate_wiki`
(api/wiki_generator.py:635-744): on success the generated content is
stored in `page['content']`; on an exception the content becomes the
inline error placeholder for that page only. -/
def renderPage (p : PageSpec) : WikiPage :=
  match p.gen with
  | Except.ok content => { title := p.title, content := content }
  | Except.error e =>
    { title := p.title, content := "# " ++ p.title ++ "\n\n生成失败: " ++ e }

/-- The per-page progress formula of `generate_wiki`
(api/wiki_generator.py:630): `70 + int((25 * i) / len(pages_structure))`
for the 0-based page index `i` (floor division on naturals). -/
def pageProgress (n i : Nat) : Nat := 70 + 25 * i / n

/-- `generate_wiki` (api/wiki_generator.py:532-751) as invoked by
`_process_task` with `update_wiki_progress` as the progress callback:
emit the structure callback at 70, then per page the callback at
`pageProgress` followed by the (purely external) content generation whose
outcome is recorded in `PageSpec.gen`, and return the assembled
`wiki_structure` dict together with `documents_count`
(`len(rag.documents)`, passed in since the RAG object is external).
Content generation does not touch the store, so emitting all callbacks
before assembling the pages is store-equivalent to the source's
interleaved loop. -/
def generate_wiki (db : DB) (now : Nat) (task_id : String)
    (project_key : Option String) (repo_name : String)
    (documents_count : Nat) (pages_structure : List PageSpec) :
    DB × WikiStructure × Nat :=
  let n := pages_structure.length
  let db1 := update_wiki_progress db now task_id project_key 70
    ("Wiki structure generated with " ++ toString n ++ " pages")
  let db2 := pages_structure.enum.foldl (fun acc ip =>
      update_wiki_progress acc now task_id project_key (pageProgress n ip.1)
        ("Generating page " ++ toString (ip.1 + 1) ++ "/" ++ toString n ++
          ": " ++ ip.2.title)) db1
  let pages := pages_structure.map renderPage
  (db2,
   { title := repo_name ++ " Wiki",
     description := "Documentation for " ++ repo_name,
     pages := pages },
   documents_count)

/-- Outcomes of the external collaborators consumed by one run of
`_process_task` (api/task_queue.py:282-603): `.error msg` means the call
raised. -/
structure PipelineEnv where
  download : Except String String
  extract : Except String Nat
  prepare : Except String Unit
  pages_structure : List PageSpec
  documents_count : Nat
  cost_message : String
  saveOk : Bool
  projOk : Bool
  today : String
  deriving Repr, DecidableEq

/-- The generic except handler of `_process_task`
(api/task_queue.py:577-594): mark the task failed with progress 0 and the
exception text, then move a truthy-keyed project to `'failed'`. The
`TaskTimeoutError` handler (lines 560-575) writes the same field shape
with a different message and is subsumed. -/
def failTaskRun (db : DB) (now : Nat) (task : Task) (e : String) : DB :=
  let db1 := update_task_status db now task.task_id "failed" (some 0)
    (some "Task failed") none (some e)
  if pyTruthy task.project_key then
    (update_wiki_project_status true db1 now (task.project_key.getD "")
      "failed" none none).2
  else db1

/-- Stages 4 and 5 of `TaskQueueManager._process_task`
(api/task_queue.py:430-559), reached once stages 1-3 succeeded: the wiki
generation with its callbacks, the 95% checkpoint, the stage-5 result
persist (best-effort: its boolean result only selects a log line), the
final completed write with the result payload, and the project transition
to `'generated'`. `save_markdown_pages` writes the separately stored
rendered-pages table, which this embedding does not model; its failure is
caught in place and changes no modelled state. -/
def finishTaskRun (db : DB) (now : Nat) (task : Task) (env : PipelineEnv)
    (repo_path : String) : DB :=
  let tid := task.task_id
  let gw := generate_wiki db now tid task.project_key task.repo_name
    env.documents_count env.pages_structure
  let db6 := gw.1
  let ws := gw.2.1
  let documents_count := gw.2.2
  let db7 := update_task_status db6 now tid "processing" (some 95)
    (some "Saving wiki results...") none none
  let db8 :=
    if pyTruthy task.project_key then
      (save_wiki_project_result env.saveOk db7 now
        (task.project_key.getD "") ws documents_count
        (some env.cost_message)).2
    else db7
  let db9 := update_task_status db8 now tid "completed" (some 100)
    (some env.cost_message)
    (some { wiki_structure := ws,
            documents_count := documents_count,
            repo_path := repo_path }) none
  if pyTruthy task.project_key then
    (update_wiki_project_status env.projOk db9 now
      (task.project_key.getD "") "generated" none (some env.today)).2
  else db9

/-- `TaskQueueManager._process_task` (api/task_queue.py:282-603): the
stage 1-3 checkpoints with abort-on-exception, then `finishTaskRun` for
stages 4-5. -/
def _process_task (db : DB) (now : Nat) (task : Task)
    (env : PipelineEnv) : DB :=
  let tid := task.task_id
  let db1 := update_task_status db now tid "processing" (some 0)
    (some "Starting wiki generation...") none none
  let db2 := update_task_status db1 now tid "processing" (some 5)
    (some "Downloading repository...") none none
  match env.download with
  | Except.error e => failTaskRun db2 now task e
  | Except.ok repo_path =>
    let db3 := update_task_status db2 now tid "processing" (some 20)
      (some "Extracting documents from repository...") none none
    match env.extract with
    | Except.error e => failTaskRun db3 now task e
    | Except.ok ndocs =>
      let db4 := update_task_status db3 now tid "processing" (some 40)
        (some ("Generating embeddings for " ++ toString ndocs ++
          " documents...")) none none
      match env.prepare with
      | Except.error e => failTaskRun db4 now task e
      | Except.ok _ =>
        let db5 := update_task_status db4 now tid "processing" (some 70)
          (some "Generating wiki structure...") none none
        finishTaskRun db5 now task env repo_path

/-- The `(status, progress)` pairs passed to `update_task_status` during a
fully successful run of `_process_task` with `n` wiki pages, in call
order: the checkpoints at 0, 5, 20, 40 and 70 (api/task_queue.py:300-433),
the structure callback at 70 (api/wiki_generator.py:619), one callback per
page at `pageProgress n i` (api/wiki_generator.py:630), the save
checkpoint at 95 (api/task_queue.py:472) and the final completed write at
100 (api/task_queue.py:547). -/
def successTrace (n : Nat) : List (String × Nat) :=
  [("processing", 0), ("processing", 5), ("processing", 20),
   ("processing", 40), ("processing", 70), ("processing", 70)] ++
  (List.range n).map (fun i => ("processing", pageProgress n i)) ++
  [("processing", 95), ("completed", 100)]

/-- The write sequence of a run in which an exception was raised after the
first `k` writes of the successful sequence: the except handler appends
the terminal failed write with progress 0 (api/task_queue.py:581-587). -/
def failureTrace (n k : Nat) : List (String × Nat) :=
  (successTrace n).take k ++ [("failed", 0)]

/-- The progress values written before the first write that enters a
terminal status (`'completed'` or `'failed'`). -/
def nonTerminalPrefix (l : List (String × Nat)) : List Nat :=
  (l.takeWhile (fun sp => sp.1 != "completed" && sp.1 != "failed")).map
    Prod.snd

/-! ## Concrete rows used to instantiate the theorems -/

/-- A concrete queued task row. -/
def sampleTask : Task :=
  { task_id := "t1",
    repo_url := "https://gitlab.example/acme/widgets",
    repo_type := "gitlab",
    owner := "acme",
    repo_name := "widgets",
    provider := "google",
    model := "gemini-2.5-flash",
    language := "en",
    is_comprehensive := true,
    excluded_dirs := none,
    excluded_files := none,
    included_dirs := none,
    included_files := none,
    access_token := some "glpat-secret",
    force_refresh := false,
    project_key := some "gitlab:acme/widgets",
    status := "queued",
    progress := 0,
    message := "Task created and queued",
    result := none,
    error_message := none,
    created_at := 1,
    updated_at := 1,
    started_at := none,
    completed_at := none }

/-- A concrete project row in status `'generating'`, carrying an earlier
failure timestamp. -/
def sampleProjectGenerating : Project :=
  { project_key := "gitlab:acme/widgets",
    repo_url := "https://gitlab.example/acme/widgets",
    repo_type := "gitlab",
    owner := "acme",
    repo_name := "widgets",
    status := "generating",
    current_task_id := some "t1",
    last_generated_at := none,
    last_failed_at := some 3,
    last_success_date := none,
    generation_count := 0,
    wiki_structure := none,
    documents_count := none,
    pages_count := none,
    progress := 0,
    message := none,
    created_at := 1,
    updated_at := 1 }

/-! ## Projection lemmas about the task update -/

theorem applyTaskUpdate_task_id (now : Nat) (s : String) (pr : Option Nat)
    (m : Option String) (r : Option TaskResult) (e : Option String)
    (t : Task) : (applyTaskUpdate now s pr m r e t).task_id = t.task_id := by
  cases pr <;> cases m <;> cases r <;> cases e <;>
    simp only [applyTaskUpdate] <;>
    (split <;> first | rfl | (split <;> rfl))

theorem applyTaskUpdate_status (now : Nat) (s : String) (pr : Option Nat)
    (m : Option String) (r : Option TaskResult) (e : Option String)
    (t : Task) : (applyTaskUpdate now s pr m r e t).status = s := by
  cases pr <;> cases m <;> cases r <;> cases e <;>
    simp only [applyTaskUpdate] <;>
    (split <;> first | rfl | (split <;> rfl))

theorem applyTaskUpdate_progress (now : Nat) (s : String) (p : Nat)
    (m : Option String) (r : Option TaskResult) (e : Option String)
    (t : Task) : (applyTaskUpdate now s (some p) m r e t).progress = p := by
  cases m <;> cases r <;> cases e <;>
    simp only [applyTaskUpdate] <;>
    (split <;> first | rfl | (split <;> rfl))

theorem applyTaskUpdate_message (now : Nat) (s : String) (pr : Option Nat)
    (m : String) (r : Option TaskResult) (e : Option String)
    (t : Task) : (applyTaskUpdate now s pr (some m) r e t).message = m := by
  cases pr <;> cases r <;> cases e <;>
    simp only [applyTaskUpdate] <;>
    (split <;> first | rfl | (split <;> rfl))

theorem applyTaskUpdate_result (now : Nat) (s : String) (pr : Option Nat)
    (m : Option String) (r : TaskResult) (e : Option String)
    (t : Task) :
    (applyTaskUpdate now s pr m (some r) e t).result = some r := by
  cases pr <;> cases m <;> cases e <;>
    simp only [applyTaskUpdate] <;>
    (split <;> first | rfl | (split <;> rfl))

theorem update_task_status_tasks_get (db : DB) (now : Nat)
    (tid s : String) (pr : Option Nat) (m : Option String)
    (r : Option TaskResult) (e : Option String) (i : Nat) :
    (update_task_status db now tid s pr m r e).tasks[i]?
      = (db.tasks[i]?).map (fun t =>
          if t.task_id == tid then applyTaskUpdate now s pr m r e t
          else t) := by
  simp [update_task_status]

theorem update_task_status_projects (db : DB) (now : Nat) (tid s : String)
    (pr : Option Nat) (m : Option String) (r : Option TaskResult)
    (e : Option String) :
    (update_task_status db now tid s pr m r e).projects = db.projects :=
  rfl

/-! ## C1 — single-flight deduplication -/

/-- C1: if `create_task` finds the subject's project row in status
`'generating'`, it returns that row's `current_task_id` and leaves the
store (in particular the tasks table) unchanged; hence a second submit
call for the same subject, with any fresh id and any store outcome,
returns the same value and adds no task row. -/
theorem create_task_single_flight (storeOk storeOk2 : Bool) (db : DB)
    (now now2 : Nat) (newId newId2 : String)
    (repo_url repo_type owner repo_name provider model language : String)
    (comp : Bool) (exd exf ind inf tok : Option String) (fr : Bool)
    (project : Project)
    (hfind : db.findProject (repo_type ++ ":" ++ owner ++ "/" ++ repo_name)
      = some project)
    (hgen : project.status = "generating") :
    create_task storeOk db now newId repo_url repo_type owner repo_name
        provider model language comp exd exf ind inf tok fr
      = (SubmitResult.returned project.current_task_id, db) ∧
    (create_task storeOk2 db now2 newId2 repo_url repo_type owner repo_name
        provider model language comp exd exf ind inf tok fr).1
      = SubmitResult.returned project.current_task_id ∧
    (create_task storeOk2 db now2 newId2 repo_url repo_type owner repo_name
        provider model language comp exd exf ind inf tok fr).2.tasks
      = db.tasks := by
  have h1 : ∀ (s : Bool) (n : Nat) (i : String),
      create_task s db n i repo_url repo_type owner repo_name provider
        model language comp exd exf ind inf tok fr
        = (SubmitResult.returned project.current_task_id, db) := by
    intro s n i
    unfold create_task get_or_create_wiki_project
    simp [hfind, hgen]
  refine ⟨h1 storeOk now newId, ?_, ?_⟩
  · rw [h1 storeOk2 now2 newId2]
  · rw [h1 storeOk2 now2 newId2]

/-- Witness for C1 at a concrete store: the project row for
`gitlab:acme/widgets` is `'generating'`, and both submit calls return its
`current_task_id` (`some "t1"`) without touching the tasks table. -/
theorem create_task_single_flight_witness :
    DB.findProject ⟨[sampleTask], [sampleProjectGenerating]⟩
        ("gitlab" ++ ":" ++ "acme" ++ "/" ++ "widgets")
      = some sampleProjectGenerating ∧
    sampleProjectGenerating.status = "generating" ∧
    create_task true ⟨[sampleTask], [sampleProjectGenerating]⟩ 2 "t2"
        "https://gitlab.example/acme/widgets" "gitlab" "acme" "widgets"
        "google" "gemini-2.5-flash" "en" true none none none none none false
      = (SubmitResult.returned (some "t1"),
         ⟨[sampleTask], [sampleProjectGenerating]⟩) :=
  ⟨rfl, rfl,
    (create_task_single_flight true true
      ⟨[sampleTask], [sampleProjectGenerating]⟩ 2 2 "t2" "t2"
      "https://gitlab.example/acme/widgets" "gitlab" "acme" "widgets"
      "google" "gemini-2.5-flash" "en" true none none none none none false
      sampleProjectGenerating rfl rfl).1⟩

/-! ## C9 — unknown task lookup is total -/

/-- C9: `get_task_status` returns `None` (rather than raising) when the
task row is absent, and likewise when the underlying store read fails. -/
theorem get_task_status_total (readErr : Bool) (db : DB) (tid : String) :
    (db.findTask tid = none → get_task_status readErr db tid = none) ∧
    get_task_status true db tid = none := by
  constructor
  · intro h
    cases readErr <;> simp [get_task_status, get_task, h]
  · simp [get_task_status, get_task]

/-- Witness for C9: on a store holding only `sampleTask`, the lookup of
the unknown id `"missing"` returns `None`. -/
theorem get_task_status_total_witness :
    DB.findTask ⟨[sampleTask], []⟩ "missing" = none ∧
    get_task_status false ⟨[sampleTask], []⟩ "missing" = none :=
  ⟨rfl, (get_task_status_total false ⟨[sampleTask], []⟩ "missing").1 rfl⟩

/-! ## C10 — the access token never leaks through status reporting -/

/-- C10: the view built by `get_task_status` has no access-token field:
two task rows that agree on everything except `access_token` produce the
same `TaskView`, and `get_task_status` over stores holding either row
returns identical answers. -/
theorem get_task_status_token_noninterference (readErr : Bool)
    (tid : String) (ps : List Project) (t1 t2 : Task)
    (h : t2 = { t1 with access_token := t2.access_token }) :
    taskView t2 = taskView t1 ∧
    get_task_status readErr ⟨[t2], ps⟩ tid
      = get_task_status readErr ⟨[t1], ps⟩ tid := by
  have hview : taskView t2 = taskView t1 := by
    rw [h]; rfl
  refine ⟨hview, ?_⟩
  cases readErr with
  | true => simp [get_task_status, get_task]
  | false =>
    simp only [get_task_status, get_task, DB.findTask, if_neg,
      Bool.false_eq_true, not_false_iff, if_false]
    have hid : t2.task_id = t1.task_id := by rw [h]
    by_cases hq : t1.task_id == tid
    · simp [List.find?, hid, hq, hview]
    · simp only [Bool.not_eq_true] at hq
      simp [List.find?, hid, hq]

/-- Witness for C10: `sampleTask` with its token replaced by another
secret yields the same view and the same status answer. -/
theorem get_task_status_token_noninterference_witness :
    ({ sampleTask with access_token := some "other" } : Task)
      = { sampleTask with
          access_token :=
            ({ sampleTask with access_token := some "other" } : Task).access_token } ∧
    taskView { sampleTask with access_token := some "other" }
      = taskView sampleTask ∧
    get_task_status false ⟨[{ sampleTask with access_token := some "other" }], []⟩ "t1"
      = get_task_status false ⟨[sampleTask], []⟩ "t1" :=
  ⟨rfl,
   (get_task_status_token_noninterference false "t1" [] sampleTask
     { sampleTask with access_token := some "other" } rfl).1,
   (get_task_status_token_noninterference false "t1" [] sampleTask
     { sampleTask with access_token := some "other" } rfl).2⟩

/-! ## C3 — timestamp stamping of `update_task_status` -/

/-- C3 counterexample: the claim says a later qualifying update leaves the
previously stored timestamp unchanged. On the code, a first
processing/progress-0 update at time 5 stamps `started_at = 5`, and a
second identical update at time 9 re-stamps it to 9 — the stored value
does not stay `some 5`. Likewise a second `failed` update re-stamps
`completed_at`. -/
theorem update_task_status_restamps :
    ((update_task_status
        (update_task_status ⟨[sampleTask], []⟩ 5 "t1" "processing" (some 0)
          (some "Starting wiki generation...") none none)
        9 "t1" "processing" (some 0)
        (some "Starting wiki generation...") none none).findTask
        "t1").map Task.started_at = some (some 9) ∧
    ((update_task_status
        (update_task_status ⟨[sampleTask], []⟩ 5 "t1" "processing" (some 0)
          (some "Starting wiki generation...") none none)
        9 "t1" "processing" (some 0)
        (some "Starting wiki generation...") none none).findTask
        "t1").map Task.started_at ≠ some (some 5) ∧
    ((update_task_status
        (update_task_status ⟨[sampleTask], []⟩ 5 "t1" "failed" (some 0)
          (some "Task failed") none (some "boom"))
        9 "t1" "failed" (some 0)
        (some "Task failed") none (some "boom")).findTask
        "t1").map Task.completed_at = some (some 9) :=
  ⟨rfl, by decide, rfl⟩

/-- C3 amended: `update_task_status` stamps `started_at := now` on
*every* update with status `'processing'` and progress 0 (overwriting any
earlier value), stamps `completed_at := now` on *every* update with
status `'completed'` or `'failed'`, and leaves both timestamps unchanged
on any other update. -/
theorem update_task_status_timestamp_stamping (db : DB) (now : Nat)
    (tid status : String) (progress : Option Nat) (msg : Option String)
    (res : Option TaskResult) (err : Option String) (i : Nat) (t t' : Task)
    (ht : db.tasks[i]? = some t)
    (ht' : (update_task_status db now tid status progress msg res
      err).tasks[i]? = some t')
    (hid : t.task_id = tid) :
    (status = "processing" ∧ progress = some 0 →
        t'.started_at = some now ∧ t'.completed_at = t.completed_at) ∧
    (status = "completed" ∨ status = "failed" →
        t'.completed_at = some now ∧ t'.started_at = t.started_at) ∧
    (¬(status = "processing" ∧ progress = some 0) →
        status ≠ "completed" → status ≠ "failed" →
        t'.started_at = t.started_at ∧ t'.completed_at = t.completed_at) := by
  have hmap : (update_task_status db now tid status progress msg res
      err).tasks[i]? = (db.tasks[i]?).map (fun u =>
        if u.task_id == tid then
          applyTaskUpdate now status progress msg res err u
        else u) := by
    simp [update_task_status]
  rw [hmap, ht] at ht'
  subst hid
  simp only [Option.map_some', beq_self_eq_true, eq_self_iff_true, if_true,
    Option.some_inj] at ht'
  subst ht'
  refine ⟨?_, ?_, ?_⟩
  · rintro ⟨hs, hp⟩
    subst hs; subst hp
    cases msg <;> cases res <;> cases err <;>
      simp [applyTaskUpdate]
  · rintro (hs | hs) <;> subst hs <;>
      cases progress <;> cases msg <;> cases res <;> cases err <;>
      simp [applyTaskUpdate]
  · intro hnp hc hf
    cases progress with
    | none =>
      cases msg <;> cases res <;> cases err <;>
        simp [applyTaskUpdate, hc, hf]
    | some v =>
      by_cases hv : status = "processing" ∧ v = 0
      · exact absurd ⟨hv.1, by rw [hv.2]⟩ hnp
      · cases msg <;> cases res <;> cases err <;>
          simp [applyTaskUpdate, hc, hf, hv]

/-- Witness for the amended C3: a processing/progress-0 update of
`sampleTask` at time 5 stamps `started_at = some 5`. -/
theorem update_task_status_timestamp_stamping_witness :
    (DB.tasks ⟨[sampleTask], []⟩)[0]? = some sampleTask ∧
    sampleTask.task_id = "t1" ∧
    ∃ t', (update_task_status ⟨[sampleTask], []⟩ 5 "t1" "processing"
        (some 0) (some "Starting wiki generation...") none none).tasks[0]?
        = some t' ∧ t'.started_at = some 5 :=
  ⟨rfl, rfl,
   { sampleTask with
      status := "processing", progress := 0,
      message := "Starting wiki generation...", updated_at := 5,
      started_at := some 5 },
   rfl,
   ((update_task_status_timestamp_stamping ⟨[sampleTask], []⟩ 5 "t1"
      "processing" (some 0) (some "Starting wiki generation...") none none
      0 sampleTask
      { sampleTask with
         status := "processing", progress := 0,
         message := "Starting wiki generation...", updated_at := 5,
         started_at := some 5 }
      rfl rfl rfl).1 ⟨rfl, rfl⟩).1⟩

/-! ## C4 — project transition field-sets -/

/-- C4 counterexample: the claim says the `'generating'` transition clears
the timestamps and that the operation validates the subject exists before
returning. On the code, transitioning `sampleProjectGenerating` (which
carries `last_failed_at = some 3`) to `'generating'` leaves
`last_failed_at = some 3`, and the operation returns true even on a store
holding no project at all. -/
theorem update_wiki_project_status_counterexample :
    ((update_wiki_project_status true ⟨[], [sampleProjectGenerating]⟩ 9
        "gitlab:acme/widgets" "generating" (some "t9") none).2.findProject
        "gitlab:acme/widgets").map Project.last_failed_at
      = some (some 3) ∧
    (update_wiki_project_status true ⟨[], []⟩ 9 "gitlab:acme/widgets"
        "generating" (some "t9") none).1 = true :=
  ⟨rfl, rfl⟩

/-- C4 amended: `update_wiki_project_status` applies exactly these
field-sets to every row whose `project_key` matches — `'generating'` sets
`current_task_id` (leaving all timestamps unchanged); `'generated'` clears
`current_task_id`, sets `last_generated_at` and `last_success_date` and
increments `generation_count`; `'failed'` clears `current_task_id` and
sets `last_failed_at`; any other status clears `current_task_id` only —
leaves non-matching rows unchanged, performs no existence validation, and
returns true unless the store operation itself fails. -/
theorem update_wiki_project_status_field_sets (storeOk : Bool) (db : DB)
    (now : Nat) (pk status : String) (tid date : Option String) :
    (update_wiki_project_status storeOk db now pk status tid date).1
      = storeOk ∧
    (storeOk = false →
      (update_wiki_project_status storeOk db now pk status tid date).2
        = db) ∧
    (storeOk = true → ∀ (i : Nat) (p p' : Project), db.projects[i]? = some p →
      (update_wiki_project_status storeOk db now pk status tid
        date).2.projects[i]? = some p' →
      (p.project_key ≠ pk → p' = p) ∧
      (p.project_key = pk →
        (status = "generating" →
          p' = { p with status := status, current_task_id := tid,
                        updated_at := now }) ∧
        (status = "generated" →
          p' = { p with status := status, current_task_id := none,
                        last_generated_at := some now,
                        last_success_date := date,
                        generation_count := p.generation_count + 1,
                        updated_at := now }) ∧
        (status = "failed" →
          p' = { p with status := status, current_task_id := none,
                        last_failed_at := some now, updated_at := now }) ∧
        (status ≠ "generating" → status ≠ "generated" → status ≠ "failed" →
          p' = { p with status := status, current_task_id := none,
                        updated_at := now }))) := by
  cases storeOk with
  | false =>
    refine ⟨rfl, fun _ => rfl, fun h => absurd h (by decide)⟩
  | true =>
    refine ⟨rfl, fun h => absurd h (by decide), ?_⟩
    intro _ i p p' hp hp'
    have hmap : (update_wiki_project_status true db now pk status tid
        date).2.projects[i]? = (db.projects[i]?).map (fun q =>
          if q.project_key == pk then
            applyProjectStatus now status tid date q
          else q) := by
      simp [update_wiki_project_status]
    rw [hmap, hp] at hp'
    simp only [Option.map_some', Option.some_inj] at hp'
    constructor
    · intro hne
      have hcond : (p.project_key == pk) = false := by simp [hne]
      rw [hcond] at hp'
      simp only [Bool.false_eq_true, if_false] at hp'
      exact hp'.symm
    · intro heq
      have hcond : (p.project_key == pk) = true := by simp [heq]
      rw [hcond] at hp'
      simp only [eq_self_iff_true, if_true] at hp'
      refine ⟨?_, ?_, ?_, ?_⟩
      · intro hs; subst hs
        rw [← hp']; simp [applyProjectStatus]
      · intro hs; subst hs
        rw [← hp']; simp [applyProjectStatus]
      · intro hs; subst hs
        rw [← hp']; simp [applyProjectStatus]
      · intro h1 h2 h3
        rw [← hp']
        simp [applyProjectStatus, h1, h2, h3]

/-- Witness for the amended C4: the `'generated'` transition of
`sampleProjectGenerating` clears `current_task_id`, stamps
`last_generated_at`, stores the success date and increments the count. -/
theorem update_wiki_project_status_field_sets_witness :
    (update_wiki_project_status true ⟨[], [sampleProjectGenerating]⟩ 9
        "gitlab:acme/widgets" "generated" none (some "2025-01-01")).1
      = true ∧
    ∃ p', (update_wiki_project_status true ⟨[], [sampleProjectGenerating]⟩
        9 "gitlab:acme/widgets" "generated" none
        (some "2025-01-01")).2.projects[0]? = some p' ∧
      p' = { sampleProjectGenerating with
              status := "generated", current_task_id := none,
              last_generated_at := some 9,
              last_success_date := some "2025-01-01",
              generation_count := sampleProjectGenerating.generation_count + 1,
              updated_at := 9 } :=
  ⟨rfl,
   { sampleProjectGenerating with
      status := "generated", current_task_id := none,
      last_generated_at := some 9,
      last_success_date := some "2025-01-01",
      generation_count := sampleProjectGenerating.generation_count + 1,
      updated_at := 9 },
   rfl,
   ((((update_wiki_project_status_field_sets true
      ⟨[], [sampleProjectGenerating]⟩ 9 "gitlab:acme/widgets" "generated"
      none (some "2025-01-01")).2.2 rfl 0 sampleProjectGenerating
      { sampleProjectGenerating with
         status := "generated", current_task_id := none,
         last_generated_at := some 9,
         last_success_date := some "2025-01-01",
         generation_count := sampleProjectGenerating.generation_count + 1,
         updated_at := 9 }
      rfl rfl).2 rfl).2.1 rfl)⟩

/-! ## C7 — the Project-row progress mirror -/

/-- C7 counterexample: the claim says no operation of the core writes
progress or message onto the Project row while a task executes. On the
code, one call of the progress callback at 80% raises the linked Project
row's `progress` column from 0 to 80 (api/task_queue.py:452-462 UPDATEs
`wiki_projects`). -/
theorem update_wiki_progress_writes_project :
    ((update_wiki_progress ⟨[sampleTask], [sampleProjectGenerating]⟩ 7 "t1"
        (some "gitlab:acme/widgets") 80
        "Generating page 1/2: Overview").findProject
        "gitlab:acme/widgets").map Project.progress = some 80 ∧
    ((⟨[sampleTask], [sampleProjectGenerating]⟩ : DB).findProject
        "gitlab:acme/widgets").map Project.progress = some 0 ∧
    ((update_wiki_progress ⟨[sampleTask], [sampleProjectGenerating]⟩ 7 "t1"
        (some "gitlab:acme/widgets") 80
        "Generating page 1/2: Overview").findProject
        "gitlab:acme/widgets").map Project.message
      = some (some "Generating page 1/2: Overview") :=
  ⟨rfl, rfl, rfl⟩

/-- C7 amended: the progress callback is a dual write — it records the
checkpoint on the Task row (status `'processing'`, the given progress and
message) and, when the task has a truthy `project_key`, also mirrors
progress and message onto that Project row (the secondary project
progress mirror of the original design is present in the code, not
dropped); Project rows with other keys are untouched, and with a falsy
`project_key` the projects table is untouched entirely. -/
theorem update_wiki_progress_dual_write (db : DB) (now : Nat)
    (tid : String) (pk : Option String) (pct : Nat) (msg : String) :
    (∀ (i : Nat) (t t' : Task), db.tasks[i]? = some t →
      (update_wiki_progress db now tid pk pct msg).tasks[i]? = some t' →
      (t.task_id = tid →
        t'.status = "processing" ∧ t'.progress = pct ∧ t'.message = msg) ∧
      (t.task_id ≠ tid → t' = t)) ∧
    (pyTruthy pk = true →
      ∀ (j : Nat) (p p' : Project), db.projects[j]? = some p →
      (update_wiki_progress db now tid pk pct msg).projects[j]? = some p' →
      (p.project_key = pk.getD "" →
        p' = { p with progress := pct, message := some msg }) ∧
      (p.project_key ≠ pk.getD "" → p' = p)) ∧
    (pyTruthy pk = false →
      (update_wiki_progress db now tid pk pct msg).projects
        = db.projects) := by
  have htasks : (update_wiki_progress db now tid pk pct msg).tasks
      = (update_task_status db now tid "processing" (some pct) (some msg)
          none none).tasks := by
    unfold update_wiki_progress
    cases h : pyTruthy pk <;> simp
  have hprojT : pyTruthy pk = true →
      (update_wiki_progress db now tid pk pct msg).projects
        = db.projects.map (fun p =>
            if p.project_key == pk.getD "" then
              { p with progress := pct, message := some msg }
            else p) := by
    intro h
    unfold update_wiki_progress
    rw [h]
    simp [update_task_status_projects]
  refine ⟨?_, ?_, ?_⟩
  · intro i t t' ht ht'
    rw [htasks, update_task_status_tasks_get, ht] at ht'
    simp only [Option.map_some', Option.some_inj] at ht'
    constructor
    · intro hid
      have hcond : (t.task_id == tid) = true := by simp [hid]
      rw [hcond] at ht'
      simp only [if_true] at ht'
      rw [← ht']
      exact ⟨applyTaskUpdate_status now "processing" (some pct) (some msg)
          none none t,
        applyTaskUpdate_progress now "processing" pct (some msg) none none t,
        applyTaskUpdate_message now "processing" (some pct) msg none none t⟩
    · intro hid
      have hcond : (t.task_id == tid) = false := by simp [hid]
      rw [hcond] at ht'
      simp only [Bool.false_eq_true, if_false] at ht'
      exact ht'.symm
  · intro h j p p' hp hp'
    rw [hprojT h] at hp'
    simp only [List.getElem?_map, hp, Option.map_some', Option.some_inj]
      at hp'
    constructor
    · intro hk
      have hcond : (p.project_key == pk.getD "") = true := by simp [hk]
      rw [hcond] at hp'
      simp only [if_true] at hp'
      exact hp'.symm
    · intro hk
      have hcond : (p.project_key == pk.getD "") = false := by simp [hk]
      rw [hcond] at hp'
      simp only [Bool.false_eq_true, if_false] at hp'
      exact hp'.symm
  · intro h
    unfold update_wiki_progress
    rw [h]
    simp [update_task_status_projects]

/-- Witness for the amended C7: the callback at 80% updates `sampleTask`
to processing/80 and mirrors 80 onto `sampleProjectGenerating`. -/
theorem update_wiki_progress_dual_write_witness :
    (DB.tasks ⟨[sampleTask], [sampleProjectGenerating]⟩)[0]?
      = some sampleTask ∧
    sampleTask.task_id = "t1" ∧
    (∃ t', (update_wiki_progress ⟨[sampleTask], [sampleProjectGenerating]⟩
        7 "t1" (some "gitlab:acme/widgets") 80 "Generating page 1").tasks[0]? = some t' ∧
      t'.status = "processing" ∧ t'.progress = 80) ∧
    pyTruthy (some "gitlab:acme/widgets") = true := by
  refine ⟨rfl, rfl, ?_, rfl⟩
  obtain ⟨h1, h2, h3⟩ :=
    ((update_wiki_progress_dual_write
      ⟨[sampleTask], [sampleProjectGenerating]⟩ 7 "t1"
      (some "gitlab:acme/widgets") 80 "Generating page 1").1 0 sampleTask
      { sampleTask with
         status := "processing", progress := 80,
         message := "Generating page 1", updated_at := 7 }
      rfl rfl).1 rfl
  exact ⟨{ sampleTask with
            status := "processing", progress := 80,
            message := "Generating page 1", updated_at := 7 }, rfl, h1, h2⟩


/-! ## C2 — the recovery sweep -/

theorem foldl_map_map {A B : Type} (l : List A) (f : A → B → B)
    (xs : List B) :
    l.foldl (fun acc a => acc.map (f a)) xs
      = xs.map (fun x => l.foldl (fun y a => f a y) x) := by
  induction l generalizing xs with
  | nil => simp
  | cons a l ih =>
    simp only [List.foldl_cons, ih, List.map_map]
    rfl

theorem foldl_failLinkedProject_stable (now : Nat) (l : List Task)
    (p : Project) (h1 : p.status ≠ "generating") (h2 : p.status ≠ "queued") :
    l.foldl (fun q t => failLinkedProject now t q) p = p := by
  induction l with
  | nil => rfl
  | cons a l ih =>
    have hstep : failLinkedProject now a p = p := by
      unfold failLinkedProject
      have hc : (p.status == "generating" || p.status == "queued") = false :=
        by simp [h1, h2]
      simp [hc]
    simp only [List.foldl_cons, hstep, ih]

theorem foldl_failLinkedProject_hit (now : Nat) (l : List Task)
    (p : Project) (hps : p.status = "generating" ∨ p.status = "queued")
    (h : ∃ t ∈ l, t.project_key = some p.project_key ∧ p.project_key ≠ "") :
    l.foldl (fun q t => failLinkedProject now t q) p
      = { p with status := "failed", last_failed_at := some now,
                 current_task_id := none, updated_at := now } := by
  have hC : (p.status == "generating" || p.status == "queued") = true := by
    rcases hps with h | h <;> simp [h]
  induction l with
  | nil => simp at h
  | cons a l ih =>
    by_cases hcond : (pyTruthy a.project_key = true ∧
        p.project_key = a.project_key.getD "")
    · have hstep : failLinkedProject now a p
          = { p with status := "failed", last_failed_at := some now,
                     current_task_id := none, updated_at := now } := by
        unfold failLinkedProject
        simp [hcond.1, hcond.2, hC]
      rw [List.foldl_cons, hstep]
      exact foldl_failLinkedProject_stable now l _ (by simp) (by simp)
    · have hstep : failLinkedProject now a p = p := by
        unfold failLinkedProject
        have hab : (pyTruthy a.project_key
            && (p.project_key == a.project_key.getD "")) = false := by
          by_cases h1 : pyTruthy a.project_key = true
          · have h2 : p.project_key ≠ a.project_key.getD "" := by
              intro h2; exact hcond ⟨h1, h2⟩
            simp [h1, h2]
          · simp only [Bool.not_eq_true] at h1
            simp [h1]
        simp [hab]
      rw [List.foldl_cons, hstep]
      apply ih
      obtain ⟨t, htl, hk, hne⟩ := h
      rcases List.mem_cons.mp htl with rfl | htl2
      · exfalso
        apply hcond
        constructor
        · simp [pyTruthy, hk, hne]
        · simp [hk]
      · exact ⟨t, htl2, hk, hne⟩

/-- C2: after one run of `cleanup_interrupted_tasks`, the returned count
is the number of tasks that were queued or processing; no task remains
queued or processing; every previously interrupted task row is failed
with the fixed interruption error message, progress 0 and a completion
timestamp; and every project linked (by a truthy `project_key`) from an
interrupted task that was still `'generating'` (or `'queued'`) is failed
with `current_task_id` cleared and `last_failed_at` set. -/
theorem cleanup_interrupted_tasks_spec (db : DB) (now : Nat) :
    (cleanup_interrupted_tasks db now).1
      = (db.tasks.filter isInterrupted).length ∧
    (∀ t' ∈ (cleanup_interrupted_tasks db now).2.tasks,
        t'.status ≠ "queued" ∧ t'.status ≠ "processing") ∧
    (∀ (i : Nat) (t t' : Task), db.tasks[i]? = some t →
      (cleanup_interrupted_tasks db now).2.tasks[i]? = some t' →
      isInterrupted t = true →
      t'.status = "failed" ∧ t'.progress = 0 ∧
      t'.error_message = some "服务器重启导致任务中断" ∧
      t'.completed_at = some now) ∧
    (∀ (j : Nat) (p p' : Project), db.projects[j]? = some p →
      (cleanup_interrupted_tasks db now).2.projects[j]? = some p' →
      (p.status = "generating" ∨ p.status = "queued") →
      (∃ t ∈ db.tasks, isInterrupted t = true ∧
         t.project_key = some p.project_key ∧ p.project_key ≠ "") →
      p'.status = "failed" ∧ p'.current_task_id = none ∧
      p'.last_failed_at = some now) := by
  refine ⟨rfl, ?_, ?_, ?_⟩
  · intro t' ht'
    have hmem : ∃ t ∈ db.tasks, markInterrupted now t = t' := by
      simpa [cleanup_interrupted_tasks] using ht'
    obtain ⟨t, _, rfl⟩ := hmem
    cases h : isInterrupted t with
    | true => simp [markInterrupted, h]
    | false =>
      have h2 := h
      unfold isInterrupted at h2
      simp only [Bool.or_eq_false_iff, beq_eq_false_iff_ne] at h2
      simpa [markInterrupted, h] using h2
  · intro i t t' ht ht' hint
    have hmap : (cleanup_interrupted_tasks db now).2.tasks[i]?
        = (db.tasks[i]?).map (markInterrupted now) := by
      simp [cleanup_interrupted_tasks]
    rw [hmap, ht] at ht'
    simp only [Option.map_some', Option.some_inj] at ht'
    rw [← ht']
    simp [markInterrupted, hint]
  · intro j p p' hp hp' hps hex
    have hproj : (cleanup_interrupted_tasks db now).2.projects
        = db.projects.map (fun q =>
            (db.tasks.filter isInterrupted).foldl
              (fun y a => failLinkedProject now a y) q) := by
      simp [cleanup_interrupted_tasks, foldl_map_map]
    rw [hproj] at hp'
    simp only [List.getElem?_map, hp, Option.map_some', Option.some_inj]
      at hp'
    obtain ⟨t, htmem, hint, hk, hne⟩ := hex
    have htf : t ∈ db.tasks.filter isInterrupted :=
      List.mem_filter.mpr ⟨htmem, hint⟩
    rw [← hp', foldl_failLinkedProject_hit now _ p hps ⟨t, htf, hk, hne⟩]
    exact ⟨rfl, rfl, rfl⟩

/-- Witness for C2: sweeping a store holding the queued `sampleTask` and
the generating `sampleProjectGenerating` at time 9 reports one cleaned
task, fails the task with the fixed message, and fails the project with
`current_task_id` cleared. -/
theorem cleanup_interrupted_tasks_spec_witness :
    (cleanup_interrupted_tasks
        ⟨[sampleTask], [sampleProjectGenerating]⟩ 9).1 = 1 ∧
    (∃ t', (cleanup_interrupted_tasks
        ⟨[sampleTask], [sampleProjectGenerating]⟩ 9).2.tasks[0]?
        = some t' ∧
      t'.status = "failed" ∧ t'.progress = 0 ∧
      t'.error_message = some "服务器重启导致任务中断" ∧
      t'.completed_at = some 9) ∧
    (∃ p', (cleanup_interrupted_tasks
        ⟨[sampleTask], [sampleProjectGenerating]⟩ 9).2.projects[0]?
        = some p' ∧
      p'.status = "failed" ∧ p'.current_task_id = none ∧
      p'.last_failed_at = some 9) :=
  ⟨rfl,
   ⟨markInterrupted 9 sampleTask, rfl,
    (cleanup_interrupted_tasks_spec
      ⟨[sampleTask], [sampleProjectGenerating]⟩ 9).2.2.1 0 sampleTask
      (markInterrupted 9 sampleTask) rfl rfl rfl⟩,
   ⟨{ sampleProjectGenerating with
       status := "failed", last_failed_at := some 9,
       current_task_id := none, updated_at := 9 }, rfl,
    (cleanup_interrupted_tasks_spec
      ⟨[sampleTask], [sampleProjectGenerating]⟩ 9).2.2.2 0
      sampleProjectGenerating
      { sampleProjectGenerating with
         status := "failed", last_failed_at := some 9,
         current_task_id := none, updated_at := 9 }
      rfl rfl (Or.inl rfl)
      ⟨sampleTask, List.mem_singleton.mpr rfl, rfl, rfl, by decide⟩⟩⟩


/-! ## Helper lemmas: the pipeline steps preserve rows and their ids -/

theorem update_task_status_get_keep (db : DB) (now : Nat) (tid s : String)
    (pr : Option Nat) (m : Option String) (r : Option TaskResult)
    (e : Option String) (i : Nat) (u : Task) (h : db.tasks[i]? = some u) :
    ∃ u', (update_task_status db now tid s pr m r e).tasks[i]? = some u'
       ∧ u'.task_id = u.task_id := by
  rw [update_task_status_tasks_get, h]
  simp only [Option.map_some']
  by_cases hc : u.task_id = tid
  · have hb : (u.task_id == tid) = true := by simp [hc]
    rw [hb]
    simp only [if_true]
    exact ⟨_, rfl, applyTaskUpdate_task_id now s pr m r e u⟩
  · have hb : (u.task_id == tid) = false := by simp [hc]
    rw [hb]
    simp only [Bool.false_eq_true, if_false]
    exact ⟨u, rfl, rfl⟩

theorem update_wiki_progress_tasks (db : DB) (now : Nat) (tid : String)
    (pk : Option String) (pct : Nat) (msg : String) :
    (update_wiki_progress db now tid pk pct msg).tasks
      = (update_task_status db now tid "processing" (some pct) (some msg)
          none none).tasks := by
  unfold update_wiki_progress
  cases h : pyTruthy pk <;> simp

theorem update_wiki_progress_get_keep (db : DB) (now : Nat) (tid : String)
    (pk : Option String) (pct : Nat) (msg : String) (i : Nat) (u : Task)
    (h : db.tasks[i]? = some u) :
    ∃ u', (update_wiki_progress db now tid pk pct msg).tasks[i]? = some u'
       ∧ u'.task_id = u.task_id := by
  obtain ⟨u', h', hid⟩ := update_task_status_get_keep db now tid
    "processing" (some pct) (some msg) none none i u h
  refine ⟨u', ?_, hid⟩
  rw [update_wiki_progress_tasks]
  exact h'

theorem foldl_update_wiki_progress_get_keep {A : Type} (l : List A)
    (now : Nat) (tid : String) (pk : Option String) (g : A → Nat)
    (gm : A → String) (db : DB) (i : Nat) (u : Task)
    (h : db.tasks[i]? = some u) :
    ∃ u', (l.foldl (fun acc a =>
        update_wiki_progress acc now tid pk (g a) (gm a)) db).tasks[i]?
        = some u' ∧ u'.task_id = u.task_id := by
  induction l generalizing db u with
  | nil => exact ⟨u, h, rfl⟩
  | cons a l ih =>
    obtain ⟨u1, h1, hid1⟩ := update_wiki_progress_get_keep db now tid pk
      (g a) (gm a) i u h
    obtain ⟨u2, h2, hid2⟩ := ih _ _ h1
    rw [List.foldl_cons]
    exact ⟨u2, h2, hid2.trans hid1⟩

theorem generate_wiki_fst_get_keep (db : DB) (now : Nat) (tid : String)
    (pk : Option String) (rn : String) (dc : Nat) (pages : List PageSpec)
    (i : Nat) (u : Task) (h : db.tasks[i]? = some u) :
    ∃ u', (generate_wiki db now tid pk rn dc pages).1.tasks[i]? = some u'
       ∧ u'.task_id = u.task_id := by
  unfold generate_wiki
  obtain ⟨u1, h1, hid1⟩ := update_wiki_progress_get_keep db now tid pk 70
    ("Wiki structure generated with " ++ toString pages.length ++ " pages")
    i u h
  obtain ⟨u2, h2, hid2⟩ := foldl_update_wiki_progress_get_keep pages.enum
    now tid pk (fun ip => pageProgress pages.length ip.1)
    (fun ip => "Generating page " ++ toString (ip.1 + 1) ++ "/" ++
      toString pages.length ++ ": " ++ ip.2.title) _ i u1 h1
  exact ⟨u2, h2, hid2.trans hid1⟩

theorem generate_wiki_snd (db : DB) (now : Nat) (tid : String)
    (pk : Option String) (rn : String) (dc : Nat)
    (pages : List PageSpec) :
    (generate_wiki db now tid pk rn dc pages).2
      = ({ title := rn ++ " Wiki",
           description := "Documentation for " ++ rn,
           pages := pages.map renderPage }, dc) := rfl

theorem save_wiki_project_result_tasks (ok : Bool) (db : DB) (now : Nat)
    (pk : String) (ws : WikiStructure) (dc : Nat) (m : Option String) :
    (save_wiki_project_result ok db now pk ws dc m).2.tasks = db.tasks := by
  cases ok <;> rfl

theorem update_wiki_project_status_tasks2 (ok : Bool) (db : DB) (now : Nat)
    (pk s : String) (tid d : Option String) :
    (update_wiki_project_status ok db now pk s tid d).2.tasks
      = db.tasks := by
  cases ok <;> rfl

/-- Master lemma for stages 4-5: whatever row the task table holds at
index `i` with the task's id, the final completed write of
`finishTaskRun` leaves it with status completed, progress 100 and the
result payload assembled from the page specs — for either value of the
stage-5 store outcome `env.saveOk`. -/
theorem finishTaskRun_completed (db : DB) (now : Nat) (task : Task)
    (env : PipelineEnv) (rp : String) (i : Nat) (u t' : Task)
    (hu : db.tasks[i]? = some u) (hid : u.task_id = task.task_id)
    (ht' : (finishTaskRun db now task env rp).tasks[i]? = some t') :
    t'.status = "completed" ∧ t'.progress = 100 ∧
    t'.result = some
      { wiki_structure :=
          { title := task.repo_name ++ " Wiki",
            description := "Documentation for " ++ task.repo_name,
            pages := env.pages_structure.map renderPage },
        documents_count := env.documents_count,
        repo_path := rp } := by
  obtain ⟨u6, h6, hid6⟩ := generate_wiki_fst_get_keep db now task.task_id
    task.project_key task.repo_name env.documents_count
    env.pages_structure i u hu
  obtain ⟨u7, h7, hid7⟩ := update_task_status_get_keep _ now task.task_id
    "processing" (some 95) (some "Saving wiki results...") none none i
    u6 h6
  have hbid : (u7.task_id == task.task_id) = true := by
    simp [hid7.trans (hid6.trans hid)]
  simp only [finishTaskRun] at ht'
  by_cases hpk : pyTruthy task.project_key
  · simp only [hpk, if_true] at ht'
    rw [update_wiki_project_status_tasks2, update_task_status_tasks_get,
      save_wiki_project_result_tasks, h7] at ht'
    simp only [Option.map_some', Option.some_inj] at ht'
    rw [hbid] at ht'
    simp only [if_true] at ht'
    rw [← ht']
    refine ⟨applyTaskUpdate_status _ _ _ _ _ _ _,
            applyTaskUpdate_progress _ _ _ _ _ _ _, ?_⟩
    rw [applyTaskUpdate_result]
    rfl
  · have hpk2 : pyTruthy task.project_key = false := by
      simpa using hpk
    simp only [hpk2, Bool.false_eq_true, if_false] at ht'
    rw [update_task_status_tasks_get, h7] at ht'
    simp only [Option.map_some', Option.some_inj] at ht'
    rw [hbid] at ht'
    simp only [if_true] at ht'
    rw [← ht']
    refine ⟨applyTaskUpdate_status _ _ _ _ _ _ _,
            applyTaskUpdate_progress _ _ _ _ _ _ _, ?_⟩
    rw [applyTaskUpdate_result]
    rfl

/-! ## C5 — bookkeeping errors do not fail a successful task -/

/-- C5: when stages 1-3 succeed and the stage-5 persist of the result
onto the Project row fails (`env.saveOk = false`), the task row is still
updated to status `'completed'` with progress 100 and the result payload
present — the persist failure never flips the task to `'failed'`. -/
theorem process_task_completed_despite_persist_failure (db : DB)
    (now : Nat) (task : Task) (env : PipelineEnv) (rp : String) (nd : Nat)
    (i : Nat) (t t' : Task)
    (hd : env.download = Except.ok rp) (he : env.extract = Except.ok nd)
    (hpr : env.prepare = Except.ok ()) (hsave : env.saveOk = false)
    (ht : db.tasks[i]? = some t) (hid : t.task_id = task.task_id)
    (ht' : (_process_task db now task env).tasks[i]? = some t') :
    t'.status = "completed" ∧ t'.status ≠ "failed" ∧ t'.progress = 100 ∧
    t'.result = some
      { wiki_structure :=
          { title := task.repo_name ++ " Wiki",
            description := "Documentation for " ++ task.repo_name,
            pages := env.pages_structure.map renderPage },
        documents_count := env.documents_count,
        repo_path := rp } := by
  unfold _process_task at ht'
  simp only [hd, he, hpr] at ht'
  obtain ⟨u1, h1, k1⟩ := update_task_status_get_keep db now task.task_id
    "processing" (some 0) (some "Starting wiki generation...") none none
    i t ht
  obtain ⟨u2, h2, k2⟩ := update_task_status_get_keep _ now task.task_id
    "processing" (some 5) (some "Downloading repository...") none none
    i u1 h1
  obtain ⟨u3, h3, k3⟩ := update_task_status_get_keep _ now task.task_id
    "processing" (some 20) (some "Extracting documents from repository...")
    none none i u2 h2
  obtain ⟨u4, h4, k4⟩ := update_task_status_get_keep _ now task.task_id
    "processing" (some 40)
    (some ("Generating embeddings for " ++ toString nd ++ " documents..."))
    none none i u3 h3
  obtain ⟨u5, h5, k5⟩ := update_task_status_get_keep _ now task.task_id
    "processing" (some 70) (some "Generating wiki structure...") none none
    i u4 h4
  have kid : u5.task_id = task.task_id := by
    rw [k5, k4, k3, k2, k1, hid]
  obtain ⟨hs, hp, hr⟩ :=
    finishTaskRun_completed _ now task env rp i u5 t' h5 kid ht'
  refine ⟨hs, ?_, hp, hr⟩
  rw [hs]
  decide

/-- A concrete page whose content generation returns. -/
def samplePage0 : PageSpec :=
  { title := "Overview", gen := Except.ok "overview content" }

/-- A concrete page whose content generation raises. -/
def samplePage1 : PageSpec :=
  { title := "Architecture", gen := Except.error "LLM timeout" }

/-- The outcome of `generate_page_content` for two concrete pages: the
first returns, the second raises. -/
def samplePages : List PageSpec := [samplePage0, samplePage1]

/-- A concrete collaborator environment: stages 1-3 succeed, the second
page's content generation raises, and the stage-5 persist fails. -/
def sampleEnv : PipelineEnv :=
  { download := Except.ok "/repos/acme/widgets",
    extract := Except.ok 3,
    prepare := Except.ok (),
    pages_structure := samplePages,
    documents_count := 3,
    cost_message := "Wiki generation completed successfully!",
    saveOk := false,
    projOk := true,
    today := "2025-01-01" }

/-- Witness for C5: running the pipeline for `sampleTask` under
`sampleEnv` (whose stage-5 persist fails) still completes the task with
progress 100. -/
theorem process_task_completed_despite_persist_failure_witness :
    sampleEnv.download = Except.ok "/repos/acme/widgets" ∧
    sampleEnv.extract = Except.ok 3 ∧
    sampleEnv.prepare = Except.ok () ∧
    sampleEnv.saveOk = false ∧
    ∃ t', (_process_task ⟨[sampleTask], [sampleProjectGenerating]⟩ 9
        sampleTask sampleEnv).tasks[0]? = some t' ∧
      t'.status = "completed" ∧ t'.status ≠ "failed" ∧
      t'.progress = 100 := by
  refine ⟨rfl, rfl, rfl, rfl, ?_⟩
  have h := process_task_completed_despite_persist_failure
    ⟨[sampleTask], [sampleProjectGenerating]⟩ 9 sampleTask sampleEnv
    "/repos/acme/widgets" 3 0 sampleTask _ rfl rfl rfl rfl rfl rfl rfl
  exact ⟨_, rfl, h.1, h.2.1, h.2.2.1⟩

/-! ## C6 — per-page isolation in stage 4 -/

/-- C6: when stages 1-3 succeed and content generation raises for exactly
one page `k` out of the page structure, the raised exception is replaced
by the inline error placeholder for that page only, the other pages keep
their generated content, and the task still completes with all pages
present in the result. -/
theorem process_task_per_page_isolation (db : DB) (now : Nat)
    (task : Task) (env : PipelineEnv) (rp : String) (nd : Nat)
    (i k : Nat) (t t' : Task) (pfail : PageSpec) (e : String)
    (hd : env.download = Except.ok rp) (he : env.extract = Except.ok nd)
    (hpr : env.prepare = Except.ok ())
    (hk : env.pages_structure[k]? = some pfail)
    (hke : pfail.gen = Except.error e)
    (hother : ∀ (j : Nat) (q : PageSpec), j ≠ k →
        env.pages_structure[j]? = some q → ∃ c, q.gen = Except.ok c)
    (ht : db.tasks[i]? = some t) (hid : t.task_id = task.task_id)
    (ht' : (_process_task db now task env).tasks[i]? = some t') :
    t'.status = "completed" ∧
    ∃ res, t'.result = some res ∧
      res.wiki_structure.pages.length = env.pages_structure.length ∧
      res.wiki_structure.pages[k]? = some
        { title := pfail.title,
          content := "# " ++ pfail.title ++ "\n\n生成失败: " ++ e } ∧
      ∀ (j : Nat) (q : PageSpec) (c : String), j ≠ k →
        env.pages_structure[j]? = some q → q.gen = Except.ok c →
        res.wiki_structure.pages[j]? = some
          { title := q.title, content := c } := by
  unfold _process_task at ht'
  simp only [hd, he, hpr] at ht'
  obtain ⟨u1, h1, k1⟩ := update_task_status_get_keep db now task.task_id
    "processing" (some 0) (some "Starting wiki generation...") none none
    i t ht
  obtain ⟨u2, h2, k2⟩ := update_task_status_get_keep _ now task.task_id
    "processing" (some 5) (some "Downloading repository...") none none
    i u1 h1
  obtain ⟨u3, h3, k3⟩ := update_task_status_get_keep _ now task.task_id
    "processing" (some 20) (some "Extracting documents from repository...")
    none none i u2 h2
  obtain ⟨u4, h4, k4⟩ := update_task_status_get_keep _ now task.task_id
    "processing" (some 40)
    (some ("Generating embeddings for " ++ toString nd ++ " documents..."))
    none none i u3 h3
  obtain ⟨u5, h5, k5⟩ := update_task_status_get_keep _ now task.task_id
    "processing" (some 70) (some "Generating wiki structure...") none none
    i u4 h4
  have kid : u5.task_id = task.task_id := by
    rw [k5, k4, k3, k2, k1, hid]
  obtain ⟨hs, _, hr⟩ :=
    finishTaskRun_completed _ now task env rp i u5 t' h5 kid ht'
  refine ⟨hs, _, hr, ?_, ?_, ?_⟩
  · simp
  · simp only [List.getElem?_map, hk, Option.map_some']
    simp [renderPage, hke]
  · intro j q c hj hq hc
    simp only [List.getElem?_map, hq, Option.map_some']
    simp [renderPage, hc]

/-- Witness for C6: under `sampleEnv` the second page's generation raises
(`"LLM timeout"`), yet the task completes with both pages present — the
first with its generated content, the second with the placeholder. -/
theorem process_task_per_page_isolation_witness :
    sampleEnv.pages_structure[1]? = some samplePage1 ∧
    samplePage1.gen = Except.error "LLM timeout" ∧
    ∃ t', (_process_task ⟨[sampleTask], [sampleProjectGenerating]⟩ 9
        sampleTask sampleEnv).tasks[0]? = some t' ∧
      t'.status = "completed" ∧
      ∃ res, t'.result = some res ∧
        res.wiki_structure.pages.length = 2 ∧
        res.wiki_structure.pages[1]? = some
          { title := "Architecture",
            content := "# Architecture\n\n生成失败: LLM timeout" } ∧
        res.wiki_structure.pages[0]? = some
          { title := "Overview", content := "overview content" } := by
  have hother : ∀ (j : Nat) (q : PageSpec), j ≠ 1 →
      sampleEnv.pages_structure[j]? = some q →
      ∃ c, q.gen = Except.ok c := by
    intro j q hj hq
    cases j with
    | zero =>
      have hq2 : samplePage0 = q := by
        simpa [sampleEnv, samplePages] using hq
      exact ⟨"overview content", by rw [← hq2]; rfl⟩
    | succ jj =>
      cases jj with
      | zero => exact absurd rfl hj
      | succ jjj => simp [sampleEnv, samplePages] at hq
  have h := process_task_per_page_isolation
    ⟨[sampleTask], [sampleProjectGenerating]⟩ 9 sampleTask sampleEnv
    "/repos/acme/widgets" 3 0 1 sampleTask _ samplePage1
    "LLM timeout" rfl rfl rfl rfl rfl hother rfl rfl rfl
  obtain ⟨hs, res, hres, hlen, hkpage, hothers⟩ := h
  refine ⟨rfl, rfl, _, rfl, hs, res, hres, hlen, hkpage, ?_⟩
  exact hothers 0 samplePage0 "overview content" (by decide) rfl rfl

/-! ## C8 — progress bounds and monotonicity -/

theorem pageProgress_le (n i : Nat) (h : i < n) : pageProgress n i ≤ 94 := by
  have hn : 0 < n := Nat.lt_of_le_of_lt (Nat.zero_le i) h
  have h2 : 25 * i / n < 25 := by
    rw [Nat.div_lt_iff_lt_mul hn]
    omega
  unfold pageProgress
  omega

theorem pageProgress_mono (n i j : Nat) (h : i ≤ j) :
    pageProgress n i ≤ pageProgress n j := by
  have h2 : 25 * i / n ≤ 25 * j / n :=
    Nat.div_le_div_right (Nat.mul_le_mul_left 25 h)
  unfold pageProgress
  omega

theorem successTrace_snd (n : Nat) :
    (successTrace n).map Prod.snd
      = [0, 5, 20, 40, 70, 70] ++
        (List.range n).map (pageProgress n) ++ [95, 100] := by
  simp only [successTrace, List.map_append, List.map_map]
  rfl

theorem chain_pageProgress (n : Nat) :
    List.Chain' (· ≤ ·) ((List.range n).map (pageProgress n)) := by
  apply List.Pairwise.chain'
  exact List.Pairwise.map _
    (fun a b hab => pageProgress_mono n a b (Nat.le_of_lt hab))
    (List.pairwise_lt_range n)

theorem successTrace_chain (n : Nat) :
    List.Chain' (· ≤ ·) ((successTrace n).map Prod.snd) := by
  rw [successTrace_snd, List.append_assoc, List.chain'_append]
  refine ⟨by simp [List.chain'_cons], ?_, ?_⟩
  · rw [List.chain'_append]
    refine ⟨chain_pageProgress n, by simp [List.chain'_cons], ?_⟩
    intro x hx y hy
    have hy95 : 95 = y := by simpa using hy
    have hx94 : x ≤ 94 := by
      have hmem : x ∈ (List.range n).map (pageProgress n) :=
        List.mem_of_mem_getLast? hx
      obtain ⟨i, hi, rfl⟩ := List.mem_map.mp hmem
      exact pageProgress_le n i (List.mem_range.mp hi)
    omega
  · intro x hx y hy
    have hx70 : 70 = x := by simpa using hx
    cases n with
    | zero =>
      have hy95 : 95 = y := by simpa using hy
      omega
    | succ m =>
      have hy70 : pageProgress (m + 1) 0 = y := by
        rw [List.range_succ_eq_map] at hy
        simpa using hy
      have : pageProgress (m + 1) 0 = 70 := by
        unfold pageProgress
        simp
      omega

theorem successTrace_bound (n : Nat) :
    ∀ sp ∈ successTrace n, sp.2 ≤ 100 := by
  intro sp hsp
  simp only [successTrace, List.mem_append, List.mem_map,
    List.mem_range, List.mem_cons, List.not_mem_nil, or_false] at hsp
  rcases hsp with (h | ⟨i, hi, rfl⟩) | h
  · rcases h with rfl | rfl | rfl | rfl | rfl | rfl <;> decide
  · have := pageProgress_le n i hi
    simpa using Nat.le_trans this (by decide)
  · rcases h with rfl | rfl <;> decide

theorem failureTrace_bound (n k : Nat) :
    ∀ sp ∈ failureTrace n k, sp.2 ≤ 100 := by
  intro sp hsp
  rcases List.mem_append.mp hsp with h | h
  · exact successTrace_bound n sp (List.take_subset k _ h)
  · have hb : sp = ("failed", 0) := by simpa using h
    rw [hb]
    decide

theorem takeWhile_append_singleton {A : Type} (p : A → Bool) (l : List A)
    (b : A) (hb : p b = false) :
    (l ++ [b]).takeWhile p = l.takeWhile p := by
  induction l with
  | nil => simp [List.takeWhile, hb]
  | cons a l ih =>
    cases ha : p a <;> simp [List.takeWhile_cons, ha, ih]

theorem nonTerminalPrefix_failureTrace_chain (n k : Nat) :
    List.Chain' (· ≤ ·) (nonTerminalPrefix (failureTrace n k)) := by
  unfold nonTerminalPrefix failureTrace
  rw [takeWhile_append_singleton _ _ _ (by decide)]
  have h1 : (((successTrace n).take k).takeWhile
      (fun sp => sp.1 != "completed" && sp.1 != "failed"))
      <+: (successTrace n).take k :=
    List.takeWhile_prefix _
  have h2 : (successTrace n).take k <+: successTrace n :=
    List.take_prefix k _
  have hpref := h1.trans h2
  exact List.Chain'.prefix (successTrace_chain n) (hpref.map Prod.snd)

/-- C8: over a full successful run with `n` pages, every recorded
progress value lies within [0,100] (the lower bound holds by the `Nat`
type) and the write sequence — 0, 5, 20, 40, 70, the structure callback
70, `70 + 25*i/n` for page `i` of `n`, 95, 100 — is non-decreasing; in a
run that fails after any prefix of `k` writes, every recorded value is
still within [0,100] and the writes before the terminal `'failed'` write
are non-decreasing; each per-page checkpoint lies within [70, 95]. -/
theorem progress_bounds_and_monotonicity (n k : Nat) :
    (∀ sp ∈ successTrace n, sp.2 ≤ 100) ∧
    List.Chain' (· ≤ ·) ((successTrace n).map Prod.snd) ∧
    (∀ sp ∈ failureTrace n k, sp.2 ≤ 100) ∧
    List.Chain' (· ≤ ·) (nonTerminalPrefix (failureTrace n k)) ∧
    (∀ i : Nat, i < n →
      70 ≤ pageProgress n i ∧ pageProgress n i ≤ 95) :=
  ⟨successTrace_bound n, successTrace_chain n, failureTrace_bound n k,
   nonTerminalPrefix_failureTrace_chain n k,
   fun i hi => ⟨Nat.le_add_right 70 _,
     Nat.le_trans (pageProgress_le n i hi) (by decide)⟩⟩

/-- Witness for C8 at a two-page run and a failure after three writes. -/
theorem progress_bounds_and_monotonicity_witness :
    ("processing", 5) ∈ successTrace 2 ∧
    (("processing", 5) : String × Nat).2 ≤ 100 ∧
    List.Chain' (· ≤ ·) ((successTrace 2).map Prod.snd) ∧
    List.Chain' (· ≤ ·) (nonTerminalPrefix (failureTrace 2 3)) :=
  ⟨by decide,
   (progress_bounds_and_monotonicity 2 3).1 ("processing", 5) (by decide),
   (progress_bounds_and_monotonicity 2 3).2.1,
   (progress_bounds_and_monotonicity 2 3).2.2.2.1⟩

end DeepWiki
